import Mathlib

/-!
Shallow embedding of the multipart message writer from
`src/gostd/src/mime/multipart/mod.rs`, together with theorems checking the
specification's claims against it.

The writer owns a boundary string and a `lastpart` flag.  The underlying byte
sink (`io::Writer`) and the string helpers (`strings::Replacer`,
`strings::ContainsAny`) are external collaborators of the module; they are
modelled from the spec, as noted on each such definition.  All other
definitions are translated directly from the Rust source.
-/

namespace Multipart

/-- Error outcomes of writer operations.  The source signals the closed state
with an `io::Error` carrying the message "is closed" (spec kind
`WriterClosed`) and would pass through the sink's own I/O error
(spec kind `SinkWriteFailed`). -/
inductive MError where
  | writerClosed
  | sinkWriteFailed
deriving DecidableEq, Repr

/-- Modelled from the spec: the byte-sink collaborator, "any destination that
accepts appended byte sequences and can fail with an I/O error".  `calls`
records the payload of every write call issued to the sink, in order;
`failSchedule` pre-decides for each successive call whether the sink reports
an I/O failure (past the end of the schedule every call succeeds). -/
structure Sink where
  calls : List String
  failSchedule : List Bool
deriving DecidableEq, Repr

/-- One write call on the sink: the payload is recorded and the call fails
exactly when the schedule says so. -/
def Sink.Write (s : Sink) (p : String) : Except MError Unit × Sink :=
  if s.failSchedule.headD false then
    (Except.error MError.sinkWriteFailed, ⟨s.calls ++ [p], s.failSchedule.tail⟩)
  else
    (Except.ok (), ⟨s.calls ++ [p], s.failSchedule.tail⟩)

/-- The multipart `Writer` struct of the source: a boundary string and the
`lastpart` flag (the sink reference `w` is threaded explicitly through each
operation instead of being stored). -/
structure Writer where
  boundary : String
  lastpart : Bool
deriving DecidableEq, Repr

/-- Modelled from the spec: the strings find-and-replace helper
(`strings::Replacer::Replace`), a single left-to-right pass over the input:
at each position the first pair whose pattern is a prefix of the remaining
input is replaced, scanning resumes after the matched pattern, and
replacement text is never re-scanned.  The fuel argument is the length of the
remaining input; every step consumes at least one input character, so the
fuel never runs out early. -/
def replaceCore (pairs : List (List Char × List Char)) : Nat → List Char → List Char
  | 0, s => s
  | _ + 1, [] => []
  | fuel + 1, c :: rest =>
    match pairs.find? (fun p => !p.1.isEmpty && p.1.isPrefixOf (c :: rest)) with
    | some p => p.2 ++ replaceCore pairs fuel (rest.drop (p.1.length - 1))
    | none => c :: replaceCore pairs fuel rest

/-- Modelled from the spec: `strings::Replacer` applied to a whole string. -/
def Replace (pairs : List (String × String)) (s : String) : String :=
  ⟨replaceCore (pairs.map (fun p => (p.1.data, p.2.data))) s.data.length s.data⟩

/-- `escapeQuotes` from the source.  The replacement pairs are exactly the
ones built at line 225: `("\\", "\\\\")` in ordinary Rust strings is
backslash to double backslash, and the raw strings `(r#"""#, r#"\\\""#)` map
a double quote to the four-character string backslash-backslash-backslash-quote
(raw strings keep every character literally). -/
def escapeQuotes (s : String) : String :=
  Replace [("\\", "\\\\"), ("\"", "\\\\\\\"")] s

/-- The `HashMap<String, Vec<String>>` part header, as an association list
(keys are unique in a hash map; list order stands for the map's arbitrary
iteration order, which the code sorts away). -/
abbrev Header := List (String × List String)

/-- `header.get(&k).unwrap()` on the hash map: the values stored under `k`. -/
def headerValues (header : Header) (k : String) : List String :=
  match header.find? (fun p => p.1 == k) with
  | some p => p.2
  | none => []

/-- The key list collected from `header.keys()` and then sorted by
`keys.sort()` (lexicographic order on strings). -/
def sortedKeys (header : Header) : List String :=
  List.insertionSort (· ≤ ·) (header.map Prod.fst)

/-- The header lines written by `CreatePart`'s inner loops: for each key in
sorted order, each of its values as `"<Key>: <Value>\r\n"`. -/
def headerBlock (header : Header) : String :=
  String.join ((sortedKeys header).map (fun k =>
    String.join ((headerValues header k).map (fun v => k ++ ": " ++ v ++ "\r\n"))))

/-- The full block `CreatePart` assembles in its local buffer `b`: the
delimiter line (chosen by the `!self.lastpart` test of line 131, reached only
when `lastpart` is false), the header lines, and the terminating blank
line. -/
def partBlock (w : Writer) (header : Header) : String :=
  (if !w.lastpart then "\r\n--" ++ w.boundary ++ "\r\n"
   else "--" ++ w.boundary ++ "\r\n")
    ++ headerBlock header ++ "\r\n"

/-- `Writer::CreatePart`: fails when closed; otherwise assembles the
delimiter-plus-header block and issues a single sink write whose result the
source discards (line 147 drops the returned `Result`), then returns ok. -/
def CreatePart (w : Writer) (header : Header) (s : Sink) :
    Except MError Unit × Writer × Sink :=
  if w.lastpart then (Except.error MError.writerClosed, w, s)
  else
    let r := s.Write (partBlock w header)
    (Except.ok (), w, r.2)

/-- `Writer::CreateFormFile`: `CreatePart` with a Content-Disposition and a
Content-Type header. -/
def CreateFormFile (w : Writer) (fieldname filename : String) (s : Sink) :
    Except MError Unit × Writer × Sink :=
  CreatePart w
    [("Content-Disposition",
      ["form-data; name=\"" ++ escapeQuotes fieldname ++ "\"; filename=\""
        ++ escapeQuotes filename ++ "\""]),
     ("Content-Type", ["application/octet-stream"])] s

/-- `Writer::CreateFormField`: `CreatePart` with a single Content-Disposition
header. -/
def CreateFormField (w : Writer) (fieldname : String) (s : Sink) :
    Except MError Unit × Writer × Sink :=
  CreatePart w
    [("Content-Disposition",
      ["form-data; name=\"" ++ escapeQuotes fieldname ++ "\""])] s

/-- `Writer::WriteField`: `CreateFormField`, then write the value through the
returned handle; this body write's result is checked. -/
def WriteField (w : Writer) (fieldname value : String) (s : Sink) :
    Except MError Unit × Writer × Sink :=
  match CreateFormField w fieldname s with
  | (Except.error e, w', s') => (Except.error e, w', s')
  | (Except.ok _, w', s') =>
    let r := s'.Write value
    match r.1 with
    | Except.error e => (Except.error e, w', r.2)
    | Except.ok _ => (Except.ok (), w', r.2)

/-- `Writer::Close`: fails when already closed; otherwise sets `lastpart`,
writes the terminal delimiter and propagates the sink's result. -/
def Close (w : Writer) (s : Sink) : Except MError Unit × Writer × Sink :=
  if w.lastpart then (Except.error MError.writerClosed, w, s)
  else
    let w' : Writer := ⟨w.boundary, true⟩
    let r := s.Write ("\r\n--" ++ w.boundary ++ "--\r\n")
    match r.1 with
    | Except.error e => (Except.error e, w', r.2)
    | Except.ok _ => (Except.ok (), w', r.2)

/-- Modelled from the spec: the substring-search helper
(`strings::ContainsAny`): whether the string contains at least one character
from `chars`. -/
def ContainsAny (s chars : String) : Bool :=
  s.data.any (fun c => chars.data.contains c)

/-- `Writer::FormDataContentType`: the boundary is double-quoted exactly when
it contains one of the special characters. -/
def FormDataContentType (w : Writer) : String :=
  let b := if ContainsAny w.boundary "()<>@,;:\"/[]?=" then
    "\"" ++ w.boundary ++ "\"" else w.boundary
  "multipart/form-data; boundary=" ++ b

/-- `Writer::Boundary`. -/
def Boundary (w : Writer) : String := w.boundary

/-- Lowercase hexadecimal digits of `n`, most significant first, as produced
by Rust's `{:x}` formatting (no leading zeros, `"0"` for zero).  The fuel
argument makes the division recursion structural; `n + 1` steps always
suffice. -/
def hexDigitsCore : Nat → Nat → List Char
  | _, 0 => []
  | n, fuel + 1 =>
    if n < 16 then [Nat.digitChar n]
    else hexDigitsCore (n / 16) fuel ++ [Nat.digitChar (n % 16)]

/-- Rust's `format!("{:x}", n)`. -/
def hexStr (n : Nat) : String := ⟨hexDigitsCore n (n + 1)⟩

/-- `as_u32` of the source: a 4-byte group read with `u32::from_ne_bytes`
(little endian on the reference platforms). -/
def as_u32 (b0 b1 b2 b3 : Fin 256) : Nat :=
  b0.val + 256 * b1.val + 256 ^ 2 * b2.val + 256 ^ 3 * b3.val

/-- `randomBoundary` of the source, with the 30-byte random block supplied by
the random-source collaborator passed in explicitly: seven 4-byte groups of
the block rendered as lowercase hex, concatenated, followed by the fixed
suffix `"xx"`. -/
def randomBoundary (bytes : Fin 30 → Fin 256) : String :=
  let a := as_u32 (bytes 0) (bytes 1) (bytes 2) (bytes 3)
  let b := as_u32 (bytes 4) (bytes 5) (bytes 6) (bytes 7)
  let c := as_u32 (bytes 8) (bytes 9) (bytes 10) (bytes 11)
  let d := as_u32 (bytes 12) (bytes 13) (bytes 14) (bytes 15)
  let e := as_u32 (bytes 16) (bytes 17) (bytes 18) (bytes 19)
  let f := as_u32 (bytes 20) (bytes 21) (bytes 22) (bytes 23)
  let g := as_u32 (bytes 24) (bytes 25) (bytes 26) (bytes 27)
  hexStr a ++ hexStr b ++ hexStr c ++ hexStr d ++ hexStr e ++ hexStr f
    ++ hexStr g ++ "xx"

/-- `Writer::new` with the random block injected. -/
def new (bytes : Fin 30 → Fin 256) : Writer :=
  ⟨randomBoundary bytes, false⟩

/-- The sink contents produced by the spec's two-field scenario: a fresh
writer whose boundary is fixed to `"TESTBOUNDARY"`, then
`WriteField "a" "1"`, `WriteField "b" "2"`, `Close`, over an always-succeeding
sink. -/
def scenarioSink : Sink :=
  let r1 := WriteField ⟨"TESTBOUNDARY", false⟩ "a" "1" ⟨[], []⟩
  let r2 := WriteField r1.2.1 "b" "2" r1.2.2
  (Close r2.2.1 r2.2.2).2.2

end Multipart

namespace Multipart

/-- Two strings with the same character data are equal. -/
theorem string_data_inj {a b : String} (h : a.data = b.data) : a = b := by
  cases a; cases b; exact congrArg String.mk h

/-- `ContainsAny` holds exactly when some character of `s` is among
`chars`. -/
theorem containsAny_iff (s chars : String) :
    ContainsAny s chars = true ↔ ∃ c ∈ s.data, c ∈ chars.data := by
  simp [ContainsAny, List.any_eq_true, List.contains]

/-- Appending a quoted copy of `B` can never coincide with appending `B`
itself: the lengths differ by two. -/
theorem quoted_ne_unquoted (p B : String) :
    p ++ ("\"" ++ B ++ "\"") ≠ p ++ B := by
  intro h
  have hlen := congrArg String.length h
  simp only [String.length_append,
    show ("\"" : String).length = 1 from rfl] at hlen
  omega

/-- Every character produced by `hexDigitsCore` is a digit character of a
value below 16. -/
theorem hexDigitsCore_mem :
    ∀ fuel n c, c ∈ hexDigitsCore n fuel → ∃ d, d < 16 ∧ c = Nat.digitChar d := by
  intro fuel
  induction fuel with
  | zero => intro n c hc; simp [hexDigitsCore] at hc
  | succ fuel ih =>
    intro n c hc
    by_cases h16 : n < 16
    · simp [hexDigitsCore, h16] at hc
      exact ⟨n, h16, hc⟩
    · simp [hexDigitsCore, h16] at hc
      rcases hc with hc | hc
      · exact ih _ _ hc
      · exact ⟨n % 16, Nat.mod_lt _ (by omega), hc⟩

/-- Every character of a `hexStr` rendering is a digit character of a value
below 16. -/
theorem hexStr_mem (n : Nat) :
    ∀ c ∈ (hexStr n).data, ∃ d, d < 16 ∧ c = Nat.digitChar d :=
  fun c hc => hexDigitsCore_mem (n + 1) n c hc

/-- The sixteen digit characters of values below 16 are ASCII and are not
whitespace. -/
theorem digitChar_ascii_not_ws :
    ∀ d : Fin 16, (Nat.digitChar d.val).val < 128
      ∧ (Nat.digitChar d.val).isWhitespace = false := by decide

/-- C1.  The claim says the very first part of a message gets the delimiter
line without a leading CRLF.  The code's delimiter choice (line 131) is gated
on the same `lastpart` flag that line 127 has already checked to be false, so
the no-CRLF branch is dead: even the very first `CreatePart` of a fresh
writer writes a block beginning with `"\r\n--<boundary>\r\n"`, which differs
from the claimed first-part block. -/
theorem claim1_first_part_delimiter_has_leading_crlf :
    (CreatePart ⟨"B", false⟩ [] ⟨[], []⟩).2.2.calls = ["\r\n--B\r\n" ++ "\r\n"]
      ∧ ("\r\n--B\r\n" ++ "\r\n" : String) ≠ "--B\r\n" ++ "\r\n" :=
  ⟨rfl, by decide⟩

/-- C2.  The claim says every sink I/O failure is surfaced, including the
sink write performed inside `CreatePart`.  On a sink whose first write fails,
the write that `CreatePart` issues does report a failure, yet `CreatePart`
returns ok: line 147 of the source discards the write's `Result`. -/
theorem claim2_createPart_swallows_sink_failure :
    ((Sink.mk [] [true]).Write (partBlock ⟨"B", false⟩ [])).1
        = Except.error MError.sinkWriteFailed
      ∧ (CreatePart ⟨"B", false⟩ [] ⟨[], [true]⟩).1 = Except.ok () :=
  ⟨rfl, rfl⟩

/-- C3.  The claim says `escapeQuotes` turns each double quote into a
backslash followed by a double quote, so `na"me` becomes `na\"me`.  The code
replaces each backslash by two backslashes as claimed, but the raw string
`r#"\\\""#` of line 225 makes each double quote become three backslashes
followed by a double quote, so `na"me` becomes `na\\\"me` instead of the
claimed `na\"me`. -/
theorem claim3_escapeQuotes_quote_replacement :
    escapeQuotes "na\"me" = "na\\\\\\\"me"
      ∧ escapeQuotes "na\"me" ≠ "na\\\"me"
      ∧ escapeQuotes "\\" = "\\\\" :=
  ⟨rfl, by decide, rfl⟩

/-- C4.  The claim's two-field scenario output.  Because the first-part
delimiter branch is dead (see C1), the code emits the claimed byte sequence
with an extra leading CRLF, so the sink holds `"\r\n" ++ <claimed>` rather
than the claimed bytes. -/
theorem claim4_two_fields_scenario_output :
    String.join scenarioSink.calls
        = "\r\n--TESTBOUNDARY\r\nContent-Disposition: form-data; name=\"a\"\r\n\r\n1\r\n--TESTBOUNDARY\r\nContent-Disposition: form-data; name=\"b\"\r\n\r\n2\r\n--TESTBOUNDARY--\r\n"
      ∧ String.join scenarioSink.calls
        = "\r\n" ++ "--TESTBOUNDARY\r\nContent-Disposition: form-data; name=\"a\"\r\n\r\n1\r\n--TESTBOUNDARY\r\nContent-Disposition: form-data; name=\"b\"\r\n\r\n2\r\n--TESTBOUNDARY--\r\n"
      ∧ String.join scenarioSink.calls
        ≠ "--TESTBOUNDARY\r\nContent-Disposition: form-data; name=\"a\"\r\n\r\n1\r\n--TESTBOUNDARY\r\nContent-Disposition: form-data; name=\"b\"\r\n\r\n2\r\n--TESTBOUNDARY--\r\n" :=
  ⟨rfl, rfl, by decide⟩

/-- C5.  For a header map (distinct keys), the emitted header block lists the
keys in strictly increasing lexicographic order, with no key omitted or
repeated, and under each key all of its stored values in order as
`"<Key>: <Value>\r\n"`; the block `CreatePart` writes is the delimiter line,
these groups in that order, and the terminating blank line. -/
theorem claim5_createPart_header_keys_sorted
    (header : Header) (w : Writer) (s : Sink)
    (hnd : (header.map Prod.fst).Nodup) (hopen : w.lastpart = false) :
    (sortedKeys header).Pairwise (· < ·)
      ∧ (sortedKeys header).Perm (header.map Prod.fst)
      ∧ (CreatePart w header s).2.2.calls = s.calls ++
          [("\r\n--" ++ w.boundary ++ "\r\n")
            ++ String.join ((sortedKeys header).map (fun k =>
                String.join ((headerValues header k).map
                  (fun v => k ++ ": " ++ v ++ "\r\n"))))
            ++ "\r\n"] := by
  have hperm : (sortedKeys header).Perm (header.map Prod.fst) :=
    List.perm_insertionSort _ _
  refine ⟨?_, hperm, ?_⟩
  · have hs : List.Sorted (· ≤ ·) (sortedKeys header) :=
      List.sorted_insertionSort _ _
    have hn : (sortedKeys header).Nodup := hperm.nodup_iff.mpr hnd
    exact (List.Pairwise.and hs hn).imp (fun h => lt_of_le_of_ne h.1 h.2)
  · simp only [CreatePart, hopen, Bool.false_eq_true, if_false, Sink.Write,
      partBlock, Bool.not_false, if_true, headerBlock]
    split <;> rfl

/-- C6.  `FormDataContentType` appends the boundary in double quotes exactly
when the boundary contains one of the special characters, and appends it
unquoted exactly otherwise. -/
theorem claim6_formDataContentType_quoting (B : String) (lp : Bool) :
    (FormDataContentType ⟨B, lp⟩
        = "multipart/form-data; boundary=" ++ ("\"" ++ B ++ "\"")
      ↔ ∃ c ∈ B.data, c ∈ "()<>@,;:\"/[]?=".data)
    ∧ (FormDataContentType ⟨B, lp⟩ = "multipart/form-data; boundary=" ++ B
      ↔ ¬ ∃ c ∈ B.data, c ∈ "()<>@,;:\"/[]?=".data) := by
  by_cases h : ∃ c ∈ B.data, c ∈ "()<>@,;:\"/[]?=".data
  · have hca : ContainsAny B "()<>@,;:\"/[]?=" = true :=
      (containsAny_iff B _).mpr h
    have hval : FormDataContentType ⟨B, lp⟩
        = "multipart/form-data; boundary=" ++ ("\"" ++ B ++ "\"") := by
      simp [FormDataContentType, hca]
    rw [hval]
    exact ⟨iff_of_true rfl h,
      iff_of_false (quoted_ne_unquoted _ B) (not_not_intro h)⟩
  · have hca : ContainsAny B "()<>@,;:\"/[]?=" = false := by
      rcases Bool.eq_false_or_eq_true (ContainsAny B "()<>@,;:\"/[]?=") with ht | hf
      · exact absurd ((containsAny_iff B _).mp ht) h
      · exact hf
    have hval : FormDataContentType ⟨B, lp⟩
        = "multipart/form-data; boundary=" ++ B := by
      simp [FormDataContentType, hca]
    rw [hval]
    exact ⟨iff_of_false (fun heq => quoted_ne_unquoted _ B heq.symm) h,
      iff_of_true rfl h⟩

/-- Witness for C6 at the boundaries `"a,b"` (contains a comma, so quoted)
and `"abc"` (no special character, so unquoted). -/
theorem claim6_witness :
    FormDataContentType ⟨"a,b", false⟩
        = "multipart/form-data; boundary=" ++ ("\"" ++ "a,b" ++ "\"")
      ∧ FormDataContentType ⟨"abc", false⟩
        = "multipart/form-data; boundary=" ++ "abc" :=
  ⟨(claim6_formDataContentType_quoting "a,b" false).1.mpr
      ⟨',', by decide, by decide⟩,
    (claim6_formDataContentType_quoting "abc" false).2.mpr (by decide)⟩

/-- C7.  After a `Close` that returned ok, both `CreatePart` and `Close` on
the resulting writer fail with the writer-closed error and leave the writer
and the sink (in particular its list of issued writes) unchanged. -/
theorem claim7_after_close_all_operations_fail
    (w : Writer) (s : Sink) (header : Header)
    (hok : (Close w s).1 = Except.ok ()) :
    CreatePart (Close w s).2.1 header (Close w s).2.2
        = (Except.error MError.writerClosed, (Close w s).2.1, (Close w s).2.2)
      ∧ Close (Close w s).2.1 (Close w s).2.2
        = (Except.error MError.writerClosed, (Close w s).2.1, (Close w s).2.2) := by
  by_cases hl : w.lastpart
  · simp [Close, hl] at hok
  · have h1 : (Close w s).2.1 = ⟨w.boundary, true⟩ := by
      cases hW : (s.Write ("\r\n--" ++ w.boundary ++ "--\r\n")).1 <;>
        simp [Close, hl, hW]
    rw [h1]
    exact ⟨rfl, rfl⟩

/-- Witness for C7: a fresh writer with boundary `"B"` and an
always-succeeding sink. -/
theorem claim7_witness :
    (Close ⟨"B", false⟩ ⟨[], []⟩).1 = Except.ok ()
      ∧ (CreatePart (Close ⟨"B", false⟩ ⟨[], []⟩).2.1 []
            (Close ⟨"B", false⟩ ⟨[], []⟩).2.2
          = (Except.error MError.writerClosed,
              (Close ⟨"B", false⟩ ⟨[], []⟩).2.1,
              (Close ⟨"B", false⟩ ⟨[], []⟩).2.2)
        ∧ Close (Close ⟨"B", false⟩ ⟨[], []⟩).2.1
            (Close ⟨"B", false⟩ ⟨[], []⟩).2.2
          = (Except.error MError.writerClosed,
              (Close ⟨"B", false⟩ ⟨[], []⟩).2.1,
              (Close ⟨"B", false⟩ ⟨[], []⟩).2.2)) :=
  ⟨rfl, claim7_after_close_all_operations_fail ⟨"B", false⟩ ⟨[], []⟩ [] rfl⟩

/-- C8.  `escapeQuotes` is not idempotent: applied to a single backslash it
yields two backslashes, and a second application yields four. -/
theorem claim8_escapeQuotes_not_idempotent :
    escapeQuotes (escapeQuotes "\\") ≠ escapeQuotes "\\" := by decide

/-- C9.  For every 30-byte random block, the generated boundary is the
concatenation of the lowercase-hexadecimal renderings of seven 4-byte groups
of the block followed by the fixed 2-character suffix `"xx"`, and every
character of the result is ASCII and is not whitespace. -/
theorem claim9_randomBoundary_shape (bytes : Fin 30 → Fin 256) :
    randomBoundary bytes
        = hexStr (as_u32 (bytes 0) (bytes 1) (bytes 2) (bytes 3))
          ++ hexStr (as_u32 (bytes 4) (bytes 5) (bytes 6) (bytes 7))
          ++ hexStr (as_u32 (bytes 8) (bytes 9) (bytes 10) (bytes 11))
          ++ hexStr (as_u32 (bytes 12) (bytes 13) (bytes 14) (bytes 15))
          ++ hexStr (as_u32 (bytes 16) (bytes 17) (bytes 18) (bytes 19))
          ++ hexStr (as_u32 (bytes 20) (bytes 21) (bytes 22) (bytes 23))
          ++ hexStr (as_u32 (bytes 24) (bytes 25) (bytes 26) (bytes 27))
          ++ "xx"
      ∧ ("xx" : String).length = 2
      ∧ ∀ c ∈ (randomBoundary bytes).data,
          c.val < 128 ∧ c.isWhitespace = false := by
  refine ⟨rfl, rfl, ?_⟩
  intro c hc
  simp only [randomBoundary, String.data_append, List.mem_append] at hc
  have hhex : (∃ d, d < 16 ∧ c = Nat.digitChar d) ∨ c ∈ ("xx" : String).data := by
    rcases hc with ((((((h | h) | h) | h) | h) | h) | h) | h
    · exact Or.inl (hexStr_mem _ c h)
    · exact Or.inl (hexStr_mem _ c h)
    · exact Or.inl (hexStr_mem _ c h)
    · exact Or.inl (hexStr_mem _ c h)
    · exact Or.inl (hexStr_mem _ c h)
    · exact Or.inl (hexStr_mem _ c h)
    · exact Or.inl (hexStr_mem _ c h)
    · exact Or.inr h
  rcases hhex with ⟨d, hd, rfl⟩ | hx
  · exact digitChar_ascii_not_ws ⟨d, hd⟩
  · have hxx : ("xx" : String).data = ['x', 'x'] := rfl
    rw [hxx] at hx
    have hcx : c = 'x' := by simpa using hx
    rw [hcx]; exact ⟨by decide, by decide⟩

/-- C10.  On an open writer, `CreatePart` issues exactly one write call on
the sink, whose payload is the whole assembled block: delimiter line, header
lines, terminating blank line. -/
theorem claim10_createPart_single_write
    (w : Writer) (header : Header) (s : Sink) (hopen : w.lastpart = false) :
    (CreatePart w header s).2.2.calls
        = s.calls ++ [("\r\n--" ++ w.boundary ++ "\r\n")
            ++ headerBlock header ++ "\r\n"]
      ∧ (CreatePart w header s).2.2.calls.length = s.calls.length + 1 := by
  have h1 : (CreatePart w header s).2.2.calls
      = s.calls ++ [("\r\n--" ++ w.boundary ++ "\r\n")
          ++ headerBlock header ++ "\r\n"] := by
    simp only [CreatePart, hopen, Bool.false_eq_true, if_false, Sink.Write,
      partBlock, Bool.not_false, if_true]
    split <;> rfl
  exact ⟨h1, by rw [h1]; simp⟩

/-- Witness for C10: an open writer with boundary `"B"`, one header key, an
empty always-succeeding sink. -/
theorem claim10_witness :
    (Writer.mk "B" false).lastpart = false
      ∧ ((CreatePart ⟨"B", false⟩ [("K", ["v"])] ⟨[], []⟩).2.2.calls
          = ([] : List String) ++ [("\r\n--" ++ "B" ++ "\r\n")
              ++ headerBlock [("K", ["v"])] ++ "\r\n"]
        ∧ (CreatePart ⟨"B", false⟩ [("K", ["v"])] ⟨[], []⟩).2.2.calls.length
          = ([] : List String).length + 1) :=
  ⟨rfl, claim10_createPart_single_write ⟨"B", false⟩ [("K", ["v"])] ⟨[], []⟩ rfl⟩

/-- Witness for C5: a two-key header, an open writer with boundary `"B"`, an
empty always-succeeding sink. -/
theorem claim5_witness :
    (([("Content-Type", ["application/octet-stream"]),
        ("Content-Disposition", ["form-data"])] : Header).map Prod.fst).Nodup
      ∧ (Writer.mk "B" false).lastpart = false
      ∧ ((sortedKeys [("Content-Type", ["application/octet-stream"]),
            ("Content-Disposition", ["form-data"])]).Pairwise (· < ·)
        ∧ (sortedKeys [("Content-Type", ["application/octet-stream"]),
            ("Content-Disposition", ["form-data"])]).Perm
            (([("Content-Type", ["application/octet-stream"]),
              ("Content-Disposition", ["form-data"])] : Header).map Prod.fst)
        ∧ (CreatePart ⟨"B", false⟩
              [("Content-Type", ["application/octet-stream"]),
                ("Content-Disposition", ["form-data"])] ⟨[], []⟩).2.2.calls
            = ([] : List String) ++
              [("\r\n--" ++ "B" ++ "\r\n")
                ++ String.join ((sortedKeys
                      [("Content-Type", ["application/octet-stream"]),
                        ("Content-Disposition", ["form-data"])]).map (fun k =>
                    String.join ((headerValues
                        [("Content-Type", ["application/octet-stream"]),
                          ("Content-Disposition", ["form-data"])] k).map
                      (fun v => k ++ ": " ++ v ++ "\r\n"))))
                ++ "\r\n"]) :=
  ⟨by decide, rfl,
    claim5_createPart_header_keys_sorted
      [("Content-Type", ["application/octet-stream"]),
        ("Content-Disposition", ["form-data"])]
      ⟨"B", false⟩ ⟨[], []⟩ (by decide) rfl⟩

end Multipart
